import Mathlib

/-!
Verification of the OnlyFans-downloader browser extension (src/background.js,
src/popup.js) against its natural-language specification.

The JavaScript is shallowly embedded: JS values are modelled by the inductive
type JSVal (null and undefined are merged into JSVal.null, which is sound here
because both are falsy and both throw on member access, the only two facts the
embedded code ever depends on); member access that can throw is modelled with
Except Unit; try/catch blocks become total functions that map the error case to
the catch block's result.  Time-dependent code (Date.now, setTimeout) takes the
clock as an explicit parameter.
-/

namespace OFD

/-- JavaScript values, as far as the embedded code inspects them.
JSVal.null stands for both null and undefined. -/
inductive JSVal where
  | null
  | bool (b : Bool)
  | num (n : Int)
  | str (s : String)
  | arr (xs : List JSVal)
  | obj (fields : List (String × JSVal))

/-- JavaScript truthiness (empty string, 0, false, null/undefined are falsy;
every array and object is truthy). -/
def jsTruthy : JSVal → Bool
  | .null => false
  | .bool b => b
  | .num n => n != 0
  | .str s => s ≠ ""
  | .arr _ => true
  | .obj _ => true

/-- Array.isArray. -/
def jsIsArray : JSVal → Bool
  | .arr _ => true
  | _ => false

/-- First binding of a key in a JS object literal, missing keys give undefined. -/
def lookupField : List (String × JSVal) → String → JSVal
  | [], _ => .null
  | (k, v) :: rest, key => if k = key then v else lookupField rest key

/-- Member access `v.key`: throws (TypeError) on null/undefined, yields the
field on objects and undefined on every other base value. -/
def jsField : JSVal → String → Except Unit JSVal
  | .null, _ => .error ()
  | .obj fs, k => .ok (lookupField fs k)
  | _, _ => .ok .null

/-- Member access on a value already known to be non-null (after a truthiness
guard), so it cannot throw. -/
def jsFieldD (v : JSVal) (k : String) : JSVal :=
  match jsField v k with
  | .ok w => w
  | .error _ => .null

/-- Optional chaining `v?.key`: null/undefined bases give undefined. -/
def jsOptField (v : JSVal) (k : String) : JSVal :=
  match v with
  | .null => .null
  | w => jsFieldD w k

/-! ### String helpers (JS String.prototype methods used by the source) -/

/-- Whether pat is a prefix of l (character lists). -/
def startsWithChars : List Char → List Char → Bool
  | [], _ => true
  | _ :: _, [] => false
  | a :: as, b :: bs => a == b && startsWithChars as bs

/-- Whether pat occurs as a contiguous substring of the second list
(JS String.prototype.includes). -/
def hasSubChars (pat : List Char) : List Char → Bool
  | [] => pat == []
  | c :: cs => startsWithChars pat (c :: cs) || hasSubChars pat cs

/-- JS `s.includes(sub)`. -/
def strIncludes (s sub : String) : Bool :=
  hasSubChars sub.data s.data

/-- ASCII character class [a-zA-Z0-9] of the sanitizing regex in
generateFilename. -/
def isAsciiAlnum (c : Char) : Bool :=
  (('a' ≤ c && c ≤ 'z') || ('A' ≤ c && c ≤ 'Z') || ('0' ≤ c && c ≤ '9'))

/-! ### background.js: API interception (handleApiRequest / fetchApiData) -/

/-- The observable part of a chrome.webRequest.onSendHeaders event:
the tab the request belongs to and its URL (src/background.js lines 45-70). -/
structure RequestDetails where
  tabId : Int
  url : String
deriving DecidableEq

/-- URL of the re-issued fetch: fetchApiData always appends the private
fragment (src/background.js line 135, `fetch(url + '#trilobite', ...)`). -/
def refetchUrl (url : String) : String := url ++ "#trilobite"

/-- After the first digit of `[0-9]+\/`: consume further digits, then require
a slash. -/
def digitsSlashTail : List Char → Bool
  | [] => false
  | c :: cs => if c.isDigit then digitsSlashTail cs else c == '/'

/-- Tail of the relevance regex's second alternative, `[0-9]+\/`: at least one
digit, then more digits, then a slash. -/
def digitsThenSlash : List Char → Bool
  | [] => false
  | c :: cs => c.isDigit && digitsSlashTail cs

/-- Unanchored search for the regex alternative `onlyfans\.com\/[0-9]+\/`. -/
def hasNumericDir : List Char → Bool
  | [] => false
  | c :: cs =>
      (startsWithChars "onlyfans.com/".data (c :: cs)
        && digitsThenSlash ((c :: cs).drop 13))
      || hasNumericDir cs

/-- The relevance test of handleApiRequest (src/background.js lines 53-55):
unanchored match of
`(onlyfans\.com\/api2\/v2\/(users|posts|chats)|onlyfans\.com\/[0-9]+\/)`. -/
def isRelevantEndpoint (url : String) : Bool :=
  strIncludes url "onlyfans.com/api2/v2/users"
  || strIncludes url "onlyfans.com/api2/v2/posts"
  || strIncludes url "onlyfans.com/api2/v2/chats"
  || hasNumericDir url.data

/-- handleApiRequest (src/background.js lines 45-70): skips requests without a
valid tab context or already carrying the private fragment, skips irrelevant
endpoints, and otherwise re-issues a fetch of the same URL tagged with the
fragment.  The result is the URL of the re-issued fetch, none when skipped. -/
def handleApiRequest (d : RequestDetails) : Option String :=
  if d.tabId < 0 ∨ strIncludes d.url "#trilobite" = true then none
  else if isRelevantEndpoint d.url then some (refetchUrl d.url)
  else none

/-! ### background.js: filename synthesis (generateFilename) -/

/-- JS String.prototype.split with a single-character separator, on character
lists ("a?b" gives ["a","b"], "" gives [""], "?" gives ["",""]). -/
def splitOnChar (sep : Char) : List Char → List (List Char)
  | [] => [[]]
  | c :: cs =>
      if c == sep then [] :: splitOnChar sep cs
      else
        match splitOnChar sep cs with
        | [] => [[c]]
        | w :: ws => (c :: w) :: ws

/-- JS `s.split(sep)` for a single-character separator. -/
def jsSplit (s : String) (sep : Char) : List String :=
  (splitOnChar sep s.data).map String.mk

/-- Base filename: `url.split('?')[0].split('/')` last element
(src/background.js lines 249-250). -/
def jsBaseName (url : String) : String :=
  (jsSplit ((jsSplit url '?').headD "") '/').getLastD ""

/-- Creator sanitization: `creator.replace(/[^a-zA-Z0-9]/g, '_')`
(src/background.js line 253). -/
def sanitizeCreator (creator : String) : String :=
  String.mk (creator.data.map fun c => if isAsciiAlnum c then c else '_')

/-- generateFilename (src/background.js lines 246-266).  url and creator come
from an untrusted message, hence JSVal; a non-string url (no .split) or
non-string creator (no .replace) throws inside the try, and the catch returns
the timestamp placeholder, with the clock passed explicitly for Date.now(). -/
def generateFilename (url creator : JSVal) (autoCreateFolder : Bool) (now : Nat) : String :=
  match url, creator with
  | .str u, .str c =>
      if autoCreateFolder then sanitizeCreator c ++ "/" ++ jsBaseName u
      else jsBaseName u
  | _, _ => "download_" ++ toString now ++ ".file"

/-! ### background.js: download queue (processDownloadQueue / executeDownload) -/

/-- A queued download (src/background.js lines 210-215): url, creator and type
come from the message untouched, the filename is synthesized. -/
structure QItem where
  url : JSVal
  filename : String
  creator : JSVal
  typeLabel : JSVal

/-- Notifications emitted by one executeDownload call (src/background.js lines
296-321): a failed transfer (the downloads service rejects, throws, or returns
a falsy id) shows one notification naming the file; success shows none. -/
def executeDownloadNotes (it : QItem) (ok : Bool) : List (String × String) :=
  if ok then [] else [("Download Failed", "Failed to download " ++ it.filename)]

/-- One completed drain-loop iteration: the transfer's start and end instants
and what executeDownload observed. -/
structure QRun where
  item : QItem
  startT : Nat
  endT : Nat
  success : Bool
  notes : List (String × String)

/-- processDownloadQueue (src/background.js lines 271-291): shift one item,
await executeDownload to completion (its duration d and outcome ok are
exogenous inputs), wait the fixed 100 ms, and continue with the rest.  The
result is the trace of runs, in queue order, with absolute times. -/
def processDownloadQueue : List (QItem × Nat × Bool) → Nat → List QRun
  | [], _ => []
  | (it, d, ok) :: rest, t =>
      ⟨it, t, t + d, ok, executeDownloadNotes it ok⟩
        :: processDownloadQueue rest (t + d + 100)

/-! ### background.js: message listener (setupMessageListener / handleDownloadRequest) -/

/-- User settings (src/background.js lines 230-241). -/
structure Settings where
  quality : String
  autoCreateFolder : Bool
deriving DecidableEq

/-- What the message listener does with one incoming message. -/
structure ListenerResult where
  success : Bool
  error : Option String
  enqueued : Option QItem

/-- setupMessageListener together with handleDownloadRequest
(src/background.js lines 177-225).  A message that is an array of at least
three elements is acknowledged with success true and handed to
handleDownloadRequest, whose own try/catch swallows the missing-URL error
(and, handleDownloadRequest being async, the listener's catch can never see it
either); everything else is acknowledged with success false.  enqueued is the
item pushed onto the download queue, none when no download is performed. -/
def onMessage (message : JSVal) (settings : Settings) (now : Nat) : ListenerResult :=
  match message with
  | .arr (url :: creator :: ty :: _) =>
      if jsTruthy url then
        { success := true, error := none,
          enqueued := some
            { url := url
              filename := generateFilename url creator settings.autoCreateFolder now
              creator := creator
              typeLabel := ty } }
      else
        { success := true, error := none, enqueued := none }
  | _ => { success := false, error := some "Invalid message format", enqueued := none }

/-! ## Supporting lemmas -/

theorem startsWithChars_self (l : List Char) : startsWithChars l l = true := by
  induction l with
  | nil => rfl
  | cons c cs ih => simp [startsWithChars, ih]

theorem hasSubChars_suffix (pat s : List Char) : hasSubChars pat (s ++ pat) = true := by
  induction s with
  | nil =>
    cases pat with
    | nil => rfl
    | cons c cs => simp [hasSubChars, startsWithChars_self]
  | cons c cs ih => simp [hasSubChars, ih]

theorem strIncludes_append (u sub : String) : strIncludes (u ++ sub) sub = true := by
  unfold strIncludes
  rw [String.data_append]
  exact hasSubChars_suffix _ _

theorem processDownloadQueue_bounds :
    ∀ (q : List (QItem × Nat × Bool)) (t : Nat),
      ∀ r ∈ processDownloadQueue q t, t ≤ r.startT ∧ r.startT ≤ r.endT := by
  intro q
  induction q with
  | nil => intro t r hr; simp [processDownloadQueue] at hr
  | cons hd tl ih =>
    obtain ⟨it, d, ok⟩ := hd
    intro t r hr
    simp only [processDownloadQueue, List.mem_cons] at hr
    rcases hr with rfl | hr
    · exact ⟨Nat.le_refl _, Nat.le_add_right _ _⟩
    · have h := ih (t + d + 100) r hr
      exact ⟨by omega, h.2⟩

theorem queue_run_notes :
    ∀ (q : List (QItem × Nat × Bool)) (t : Nat),
      ∀ r ∈ processDownloadQueue q t, r.notes = executeDownloadNotes r.item r.success := by
  intro q
  induction q with
  | nil => intro t r hr; simp [processDownloadQueue] at hr
  | cons hd tl ih =>
    obtain ⟨it, d, ok⟩ := hd
    intro t r hr
    simp only [processDownloadQueue, List.mem_cons] at hr
    rcases hr with rfl | hr
    · rfl
    · exact ih _ r hr

/-! ## C1: the download queue is strictly serialized -/

/-- C1: for any sequence of enqueued items, the drain loop produces exactly one
run per item in enqueue order, every run starts no later than it ends,
consecutive runs are separated by the 100 ms cool-down (so consecutive starts
are at least 100 ms apart), and no two runs overlap at any instant. -/
theorem download_queue_serialized (q : List (QItem × Nat × Bool)) (t : Nat) :
    ((processDownloadQueue q t).map QRun.item = q.map fun e => e.1) ∧
    (∀ r ∈ processDownloadQueue q t, r.startT ≤ r.endT) ∧
    List.Chain' (fun a b => a.endT < b.startT ∧ a.startT + 100 ≤ b.startT)
      (processDownloadQueue q t) ∧
    List.Pairwise (fun a b => a.endT < b.startT) (processDownloadQueue q t) := by
  refine ⟨?_, fun r hr => (processDownloadQueue_bounds q t r hr).2, ?_, ?_⟩
  · induction q generalizing t with
    | nil => rfl
    | cons hd tl ih =>
      obtain ⟨it, d, ok⟩ := hd
      simp [processDownloadQueue, ih]
  · induction q generalizing t with
    | nil => simp [processDownloadQueue]
    | cons hd tl ih =>
      obtain ⟨it, d, ok⟩ := hd
      simp only [processDownloadQueue]
      rw [List.chain'_cons']
      refine ⟨?_, ih (t + d + 100)⟩
      intro y hy
      have hb := processDownloadQueue_bounds tl (t + d + 100) y (List.mem_of_mem_head? hy)
      constructor
      · show t + d < y.startT
        omega
      · show t + 100 ≤ y.startT
        omega
  · induction q generalizing t with
    | nil => simp [processDownloadQueue]
    | cons hd tl ih =>
      obtain ⟨it, d, ok⟩ := hd
      simp only [processDownloadQueue]
      rw [List.pairwise_cons]
      refine ⟨?_, ih (t + d + 100)⟩
      intro y hy
      have hb := processDownloadQueue_bounds tl (t + d + 100) y hy
      show t + d < y.startT
      omega

/-- Concrete queue used by the witnesses: two items, the second failing. -/
def qi1 : QItem := ⟨.str "https://x/a.mp4", "Bob/a.mp4", .str "Bob", .str "download video"⟩

/-- Second concrete queued item. -/
def qi2 : QItem := ⟨.str "https://x/b.jpg", "Bob/b.jpg", .str "Bob", .str "download"⟩

/-- Concrete queue: first item takes 5 ms and succeeds, second fails. -/
def qdemo : List (QItem × Nat × Bool) := [(qi1, 5, true), (qi2, 0, false)]

theorem download_queue_serialized_witness :
    (processDownloadQueue qdemo 0).map QRun.item = [qi1, qi2] ∧
    (⟨qi1, 0, 5, true, []⟩ : QRun).startT ≤ (⟨qi1, 0, 5, true, []⟩ : QRun).endT :=
  ⟨(download_queue_serialized qdemo 0).1,
   (download_queue_serialized qdemo 0).2.1 ⟨qi1, 0, 5, true, []⟩ (List.mem_cons_self _ _)⟩

/-! ## C6: a failed transfer notifies the user and the queue continues -/

/-- C6: every item of the queue is driven to a run (one failure never halts the
queue: the trace has exactly one run per queued item), a failed run emits
exactly one notification whose message names the failed file, and a successful
run emits none. -/
theorem failed_download_notifies_and_continues (q : List (QItem × Nat × Bool)) (t : Nat) :
    ((processDownloadQueue q t).length = q.length) ∧
    (∀ r ∈ processDownloadQueue q t,
      (r.success = false →
        r.notes = [("Download Failed", "Failed to download " ++ r.item.filename)]) ∧
      (r.success = true → r.notes = [])) := by
  constructor
  · induction q generalizing t with
    | nil => rfl
    | cons hd tl ih =>
      obtain ⟨it, d, ok⟩ := hd
      simp [processDownloadQueue, ih]
  · intro r hr
    have h := queue_run_notes q t r hr
    constructor
    · intro hs
      rw [h, hs]
      rfl
    · intro hs
      rw [h, hs]
      rfl

theorem failed_download_notifies_witness :
    (processDownloadQueue qdemo 0).length = 2 ∧
    (⟨qi2, 105, 105, false, executeDownloadNotes qi2 false⟩ : QRun).notes
      = [("Download Failed", "Failed to download Bob/b.jpg")] :=
  ⟨(failed_download_notifies_and_continues qdemo 0).1,
   ((failed_download_notifies_and_continues qdemo 0).2
      ⟨qi2, 105, 105, false, executeDownloadNotes qi2 false⟩
      (List.mem_cons_of_mem _ (List.mem_cons_self _ _))).1 rfl⟩

/-! ## C7: the interception re-fetch cannot recurse -/

/-- C7: every re-issued fetch URL carries the private `#trilobite` fragment;
any observed request that carries that fragment, or whose tab context is
invalid (tabId below 0), is skipped without a re-fetch — in particular a
re-fetch of any URL is never itself re-fetched. -/
theorem refetch_cannot_recurse :
    (∀ (d : RequestDetails) (f : String), handleApiRequest d = some f → f = refetchUrl d.url) ∧
    (∀ (tid : Int) (u : String), handleApiRequest ⟨tid, refetchUrl u⟩ = none) ∧
    (∀ d : RequestDetails, d.tabId < 0 → handleApiRequest d = none) := by
  refine ⟨?_, ?_, ?_⟩
  · intro d f h
    unfold handleApiRequest at h
    split at h
    · exact absurd h (by simp)
    · split at h
      · exact (Option.some.inj h).symm
      · exact absurd h (by simp)
  · intro tid u
    have hinc : strIncludes (refetchUrl u) "#trilobite" = true := strIncludes_append u _
    unfold handleApiRequest
    simp [hinc]
  · intro d h
    unfold handleApiRequest
    simp [h]

theorem refetch_cannot_recurse_witness :
    handleApiRequest ⟨0, refetchUrl "https://onlyfans.com/api2/v2/users/me"⟩ = none ∧
    handleApiRequest ⟨-1, "https://onlyfans.com/api2/v2/users/x"⟩ = none ∧
    "https://onlyfans.com/api2/v2/users/x#trilobite"
      = refetchUrl "https://onlyfans.com/api2/v2/users/x" :=
  ⟨refetch_cannot_recurse.2.1 0 "https://onlyfans.com/api2/v2/users/me",
   refetch_cannot_recurse.2.2 ⟨-1, "https://onlyfans.com/api2/v2/users/x"⟩ (by norm_num),
   refetch_cannot_recurse.1 ⟨0, "https://onlyfans.com/api2/v2/users/x"⟩
     "https://onlyfans.com/api2/v2/users/x#trilobite" (by decide)⟩

/-! ## C2: filename synthesis -/

/-- C2: the base filename is the last path segment of the URL with any query
string stripped; the creator is sanitized by replacing every character outside
[A-Za-z0-9] with an underscore ("Jane Doe#1" becomes "Jane_Doe_1", and every
sanitized character is alphanumeric or an underscore); folder organization
prefixes the sanitized creator and a slash; and any exception during synthesis
(a non-string url or creator) yields the timestamp placeholder, so synthesis
is total. -/
theorem filename_synthesis (u c : String) (now : Nat) :
    (generateFilename (.str u) (.str c) true now = sanitizeCreator c ++ "/" ++ jsBaseName u) ∧
    (generateFilename (.str u) (.str c) false now = jsBaseName u) ∧
    sanitizeCreator "Jane Doe#1" = "Jane_Doe_1" ∧
    (∀ ch ∈ (sanitizeCreator c).data, isAsciiAlnum ch = true ∨ ch = '_') ∧
    (generateFilename (.str u) .null true now = "download_" ++ toString now ++ ".file") ∧
    (generateFilename .null (.str c) true now = "download_" ++ toString now ++ ".file") := by
  refine ⟨rfl, rfl, by decide, ?_, rfl, rfl⟩
  intro ch hch
  have hch' : ch ∈ c.data.map fun a => if isAsciiAlnum a then a else '_' := hch
  obtain ⟨a, _, heq⟩ := List.mem_map.mp hch'
  by_cases h : isAsciiAlnum a = true
  · left
    rw [← heq]
    simp [h]
  · right
    rw [← heq]
    simp [h]

theorem filename_synthesis_witness :
    generateFilename (.str "https://x/a.mp4?tk=1") (.str "Jane Doe#1") true 7
      = "Jane_Doe_1/a.mp4" ∧
    (isAsciiAlnum '_' = true ∨ '_' = '_') :=
  ⟨((filename_synthesis "https://x/a.mp4?tk=1" "Jane Doe#1" 7).1).trans (by decide),
   (filename_synthesis "x" "a_b" 7).2.2.2.1 '_' (by decide)⟩

/-! ## popup.js content script: correlation stores (processApiData and friends) -/

mutual
/-- Equality used for JS Map keys (SameValueZero).  The embedded code only
ever uses primitive keys (post-id strings or numbers, cleaned URL strings),
for which this agrees with JS; the composite cases complete the definition. -/
def JSVal.beq : JSVal → JSVal → Bool
  | .null, .null => true
  | .bool a, .bool b => a == b
  | .num a, .num b => a == b
  | .str a, .str b => a == b
  | .arr xs, .arr ys => JSVal.beqList xs ys
  | .obj fs, .obj gs => JSVal.beqFields fs gs
  | _, _ => false

/-- Pointwise JSVal.beq on lists. -/
def JSVal.beqList : List JSVal → List JSVal → Bool
  | [], [] => true
  | x :: xs, y :: ys => JSVal.beq x y && JSVal.beqList xs ys
  | _, _ => false

/-- Pointwise JSVal.beq on field lists. -/
def JSVal.beqFields : List (String × JSVal) → List (String × JSVal) → Bool
  | [], [] => true
  | (k, v) :: fs, (l, w) :: gs => k == l && JSVal.beq v w && JSVal.beqFields fs gs
  | _, _ => false
end

/-- A JS Map as an association list. -/
abbrev Store := List (JSVal × JSVal)

/-- Map.prototype.set: overwrite the binding when the key is present
(last writer wins), append otherwise. -/
def storeSet (m : Store) (k v : JSVal) : Store :=
  if (List.any m fun p => JSVal.beq p.1 k) then
    List.map (fun p => if JSVal.beq p.1 k then (p.1, v) else p) m
  else m ++ [(k, v)]

/-- Map.prototype.has. -/
def storeHas (m : Store) (k : JSVal) : Bool :=
  List.any m fun p => JSVal.beq p.1 k

/-- Map.prototype.get, undefined when absent. -/
def storeGet (m : Store) (k : JSVal) : JSVal :=
  match List.find? (fun p => JSVal.beq p.1 k) m with
  | some p => p.2
  | none => .null

/-- The three process-lifetime stores of the content script
(src/popup.js lines 185-187). -/
structure CSState where
  mediaStore : Store
  videoStore : Store
  imageStore : Store

/-- Initial store state. -/
def emptyCS : CSState := ⟨[], [], []⟩

/-- cleanUrl (src/popup.js lines 486-488): `url ? url.split('?')[0] : url`.
A truthy non-string has no .split, so the access throws. -/
def cleanUrl (url : JSVal) : Except Unit JSVal :=
  match url with
  | .str s => .ok (.str ((jsSplit s '?').headD ""))
  | v => if jsTruthy v then .error () else .ok v

/-- The videoMap built by processVideoMedia (src/popup.js lines 451-460) from
source.source (full) and the numeric 240/720 quality keys, present only when
truthy. -/
def buildVideoMap (media : JSVal) : JSVal :=
  let full := jsOptField (jsFieldD media "source") "source"
  let vs := jsFieldD media "videoSources"
  let q240 := if jsTruthy vs then jsFieldD vs "240" else .null
  let q720 := if jsTruthy vs then jsFieldD vs "720" else .null
  .obj ((if jsTruthy full then [("full", full)] else [])
    ++ (if jsTruthy q240 then [("240", q240)] else [])
    ++ (if jsTruthy q720 then [("720", q720)] else []))

/-- The preview URLs of a media entry:
`[media.preview, media.squarePreview, media.thumb].filter(Boolean)`
(src/popup.js lines 463 and 475). -/
def previewsOf (media : JSVal) : List JSVal :=
  List.filter jsTruthy
    [jsFieldD media "preview", jsFieldD media "squarePreview", jsFieldD media "thumb"]

/-- The forEach of processVideoMedia (src/popup.js lines 464-468): write the
videoMap into imageStore under each cleaned preview.  The Bool result records
whether an exception was thrown (non-string preview), in which case the writes
already made persist, as JS Map mutations do. -/
def videoPreviewLoop (value : JSVal) : List JSVal → CSState → CSState × Bool
  | [], st => (st, false)
  | p :: ps, st =>
      if jsTruthy p then
        match cleanUrl p with
        | .error _ => (st, true)
        | .ok key =>
            videoPreviewLoop value ps
              { st with imageStore := storeSet st.imageStore key value }
      else videoPreviewLoop value ps st

/-- processVideoMedia (src/popup.js lines 450-469). -/
def processVideoMedia (media : JSVal) (st : CSState) : CSState × Bool :=
  videoPreviewLoop (buildVideoMap media) (previewsOf media) st

/-- The forEach of processImageMedia (src/popup.js lines 476-480):
`if (preview && media.src)` then write media.src under the cleaned preview. -/
def imagePreviewLoop (src : JSVal) : List JSVal → CSState → CSState × Bool
  | [], st => (st, false)
  | p :: ps, st =>
      if jsTruthy p && jsTruthy src then
        match cleanUrl p with
        | .error _ => (st, true)
        | .ok key =>
            imagePreviewLoop src ps
              { st with imageStore := storeSet st.imageStore key src }
      else imagePreviewLoop src ps st

/-- processImageMedia (src/popup.js lines 474-481). -/
def processImageMedia (media : JSVal) (st : CSState) : CSState × Bool :=
  imagePreviewLoop (jsFieldD media "src") (previewsOf media) st

/-- The media forEach of processMediaItem (src/popup.js lines 437-443):
media.type throws on a null entry, aborting the rest of the loop (the caller
catches); a video entry goes to processVideoMedia, anything else to
processImageMedia. -/
def mediaLoop : List JSVal → CSState → CSState × Bool
  | [], st => (st, false)
  | m :: ms, st =>
      match jsField m "type" with
      | .error _ => (st, true)
      | .ok ty =>
          match (if JSVal.beq ty (.str "video")
                 then processVideoMedia m st else processImageMedia m st) with
          | (st1, true) => (st1, true)
          | (st1, false) => mediaLoop ms st1

/-- processMediaItem (src/popup.js lines 431-445): store the item under its id
in the store chosen by the caller (videoStore for DM payloads, mediaStore
otherwise), then process its media array. -/
def processMediaItem (item : JSVal) (isForDm : Bool) (st : CSState) : CSState × Bool :=
  match jsField item "id" with
  | .error _ => (st, true)
  | .ok idv =>
      let st1 :=
        if jsTruthy idv then
          if isForDm then { st with videoStore := storeSet st.videoStore idv item }
          else { st with mediaStore := storeSet st.mediaStore idv item }
        else st
      match jsFieldD item "media" with
      | .arr ms => mediaLoop ms st1
      | _ => (st1, false)

/-- The forEach over an array payload in processApiData (src/popup.js
line 419), stopping at the first thrown exception but keeping prior writes. -/
def itemsLoop (isForDm : Bool) : List JSVal → CSState → CSState × Bool
  | [], st => (st, false)
  | it :: its, st =>
      match processMediaItem it isForDm st with
      | (st1, true) => (st1, true)
      | (st1, false) => itemsLoop isForDm its st1

/-- processApiData (src/popup.js lines 414-426): arrays are processed item by
item, a single object with a truthy id and a media array is processed as one
record, anything else stores nothing; the surrounding try/catch swallows any
exception, keeping the writes made before it. -/
def processApiData (data : JSVal) (isForDm : Bool) (st : CSState) : CSState :=
  (match data with
   | .arr xs => itemsLoop isForDm xs st
   | _ =>
       match jsField data "id" with
       | .error _ => (st, true)
       | .ok idv =>
           if jsTruthy idv && jsIsArray (jsFieldD data "media") then
             processMediaItem data isForDm st
           else (st, false)).1

/-- processApiResponse (src/background.js lines 156-172) before its try/catch:
arrays pass through, a truthy list field is returned whatever it is, an object
with truthy id and a media array passes through, everything else gives null;
accessing .list on null/undefined throws. -/
def processApiResponseE (data : JSVal) : Except Unit JSVal :=
  if jsIsArray data then .ok data
  else
    match jsField data "list" with
    | .error e => .error e
    | .ok l =>
        if jsTruthy l then .ok l
        else
          match jsField data "id" with
          | .error e => .error e
          | .ok idv =>
              if jsTruthy idv && jsIsArray (jsFieldD data "media") then .ok data
              else .ok .null

/-- processApiResponse with its catch block: an exception yields null. -/
def processApiResponse (data : JSVal) : JSVal :=
  match processApiResponseE data with
  | .ok v => v
  | .error _ => .null

/-- The full recording pipeline: sendToContentScript (src/background.js lines
99-128) normalizes the payload, drops a null result, and hands the rest to the
content script, whose message listener calls processApiData. -/
def recordResponse (payload : JSVal) (isForDm : Bool) (st : CSState) : CSState :=
  let d := processApiResponse payload
  if jsTruthy d then processApiData d isForDm st else st

/-- The three shape checks of the normalization path: Array.isArray, a truthy
list field, or a truthy id with a media array. -/
def acceptedShape (p : JSVal) : Bool :=
  jsIsArray p || jsTruthy (jsFieldD p "list")
    || (jsTruthy (jsFieldD p "id") && jsIsArray (jsFieldD p "media"))


/-! ## C4: malformed download messages at the boundary -/

/-- Shape check of the message listener (src/background.js line 181):
an array of at least three elements. -/
def isDownloadShape : JSVal → Bool
  | .arr (_ :: _ :: _ :: _) => true
  | _ => false

/-- C4 counterexample: a three-element message with a missing (null) URL is
acknowledged with success true, not the failure acknowledgement the claim
requires — handleDownloadRequest throws No URL provided, but its own catch
swallows the error (and the listener, having called an async function, has
already responded), so no download happens yet the ack says success. -/
theorem malformed_message_counterexample :
    (onMessage (.arr [.null, .str "Bob", .str "download"]) ⟨"full", true⟩ 0).success = true ∧
    (onMessage (.arr [.null, .str "Bob", .str "download"]) ⟨"full", true⟩ 0).enqueued = none :=
  ⟨rfl, rfl⟩

/-- C4 amended: a message that is not an array of at least three elements is
acknowledged with success false and no download is performed; an array of at
least three elements is always acknowledged with success true, and the
download is enqueued exactly when its URL entry is truthy (a falsy URL
performs no download but is still acknowledged as success). -/
theorem message_boundary_behavior (m : JSVal) (s : Settings) (now : Nat) :
    (isDownloadShape m = false →
       onMessage m s now = ⟨false, some "Invalid message format", none⟩) ∧
    (∀ url creator ty rest, m = .arr (url :: creator :: ty :: rest) →
       (onMessage m s now).success = true ∧
       (jsTruthy url = false → (onMessage m s now).enqueued = none) ∧
       (jsTruthy url = true →
          (onMessage m s now).enqueued
            = some ⟨url, generateFilename url creator s.autoCreateFolder now, creator, ty⟩)) := by
  constructor
  · intro h
    cases m with
    | arr xs =>
      match xs, h with
      | [], _ => rfl
      | [a], _ => rfl
      | [a, b], _ => rfl
      | a :: b :: c :: rest, h => simp [isDownloadShape] at h
    | null => rfl
    | bool v => rfl
    | num n => rfl
    | str v => rfl
    | obj fs => rfl
  · rintro url creator ty rest rfl
    refine ⟨?_, ?_, ?_⟩
    · by_cases hu : jsTruthy url
      · simp [onMessage, hu]
      · simp [onMessage, hu]
    · intro hu
      simp [onMessage, hu]
    · intro hu
      simp [onMessage, hu]

theorem message_boundary_behavior_witness :
    onMessage (.str "hi") ⟨"full", true⟩ 0 = ⟨false, some "Invalid message format", none⟩ ∧
    (onMessage (.arr [.str "https://x/a.mp4", .str "Bob", .str "download"]) ⟨"full", true⟩ 3).success
      = true ∧
    (onMessage (.arr [.str "https://x/a.mp4", .str "Bob", .str "download"]) ⟨"full", true⟩ 3).enqueued
      = some ⟨.str "https://x/a.mp4", "Bob/a.mp4", .str "Bob", .str "download"⟩ :=
  ⟨(message_boundary_behavior (.str "hi") ⟨"full", true⟩ 0).1 rfl,
   ((message_boundary_behavior _ ⟨"full", true⟩ 3).2
      (.str "https://x/a.mp4") (.str "Bob") (.str "download") [] rfl).1,
   ((message_boundary_behavior _ ⟨"full", true⟩ 3).2
      (.str "https://x/a.mp4") (.str "Bob") (.str "download") [] rfl).2.2 rfl⟩

/-! ## C5: payload normalization -/

/-- C5 counterexample: an input that is none of the three claimed shapes (not
an array, its list field is an object rather than an array, and it has no id)
still yields one stored record, because the envelope check only requires a
truthy list field and passes it downstream, where a single post object stores
itself. -/
theorem payload_normalization_counterexample :
    jsIsArray (.obj [("list", .obj [("id", .str "1"), ("media", .arr [])])]) = false ∧
    jsIsArray (jsFieldD (.obj [("list", .obj [("id", .str "1"), ("media", .arr [])])]) "list")
      = false ∧
    jsTruthy (jsFieldD (.obj [("list", .obj [("id", .str "1"), ("media", .arr [])])]) "id")
      = false ∧
    (recordResponse (.obj [("list", .obj [("id", .str "1"), ("media", .arr [])])])
        false emptyCS).mediaStore
      = [(.str "1", .obj [("id", .str "1"), ("media", .arr [])])] :=
  ⟨rfl, rfl, rfl, rfl⟩

/-- Helper: a payload rejected by all three shape checks normalizes to null. -/
theorem processApiResponse_rejected (p : JSVal) (h : acceptedShape p = false) :
    processApiResponse p = .null := by
  simp only [acceptedShape, Bool.or_eq_false_iff] at h
  obtain ⟨⟨h1, h2⟩, h3⟩ := h
  cases p with
  | null => rfl
  | bool v => rfl
  | num n => rfl
  | str v => rfl
  | arr xs => simp [jsIsArray] at h1
  | obj fs =>
      have h2' : jsTruthy (lookupField fs "list") = false := h2
      have h3' : (jsTruthy (lookupField fs "id")
          && jsIsArray (jsFieldD (.obj fs) "media")) = false := h3
      have hna : jsIsArray (JSVal.obj fs) = false := rfl
      unfold processApiResponse processApiResponseE
      cases hb : jsTruthy (lookupField fs "id") with
      | false => simp [jsField, h2', hb, hna]
      | true =>
          rw [hb] at h3'
          simp only [Bool.true_and] at h3'
          simp [jsField, h2', hb, h3', hna]

/-- C5 amended: the normalizer accepts arrays (returned as-is), any payload
whose list field is truthy (that field is returned, array or not), and any
payload with a truthy id and a media array (returned as a single record);
every input failing all three checks normalizes to null and stores nothing,
with no exception escaping (the pipeline is a total function by construction).
The envelope check does not require the list to be an array, so a non-array
list can itself store a record. -/
theorem payload_normalization (p : JSVal) (b : Bool) (st : CSState) :
    (acceptedShape p = false → recordResponse p b st = st) ∧
    (∀ xs, processApiResponse (.arr xs) = .arr xs) ∧
    (jsIsArray p = false → jsTruthy (jsFieldD p "list") = true →
       processApiResponse p = jsFieldD p "list") ∧
    (jsIsArray p = false → jsTruthy (jsFieldD p "list") = false →
       (jsTruthy (jsFieldD p "id") && jsIsArray (jsFieldD p "media")) = true →
       processApiResponse p = p) := by
  refine ⟨?_, fun xs => rfl, ?_, ?_⟩
  · intro h
    have hr := processApiResponse_rejected p h
    simp [recordResponse, hr, jsTruthy]
  · intro hna hl
    cases p with
    | null => simp [jsFieldD, jsField, jsTruthy] at hl
    | bool v => simp [jsFieldD, jsField, jsTruthy] at hl
    | num n => simp [jsFieldD, jsField, jsTruthy] at hl
    | str v => simp [jsFieldD, jsField, jsTruthy] at hl
    | arr xs => simp [jsIsArray] at hna
    | obj fs =>
        have hl' : jsTruthy (lookupField fs "list") = true := hl
        simp [processApiResponse, processApiResponseE, jsIsArray, jsField, hl']
        rfl
  · intro hna hl hid
    cases p with
    | null => simp [jsFieldD, jsField, jsTruthy] at hl hid ⊢
    | bool v => simp [jsFieldD, jsField, jsTruthy] at hid
    | num n => simp [jsFieldD, jsField, jsTruthy] at hid
    | str v => simp [jsFieldD, jsField, jsTruthy] at hid
    | arr xs => simp [jsIsArray] at hna
    | obj fs =>
        have hl' : jsTruthy (lookupField fs "list") = false := hl
        have hid' : (jsTruthy (lookupField fs "id")
            && jsIsArray (jsFieldD (.obj fs) "media")) = true := hid
        simp only [Bool.and_eq_true] at hid'
        obtain ⟨hia, hib⟩ := hid'
        have hna' : jsIsArray (JSVal.obj fs) = false := rfl
        unfold processApiResponse processApiResponseE
        simp [jsField, hl', hia, hib, hna']

theorem payload_normalization_witness :
    recordResponse (.obj []) false emptyCS = emptyCS ∧
    recordResponse .null false emptyCS = emptyCS ∧
    recordResponse (.str "string") false emptyCS = emptyCS ∧
    processApiResponse (.obj [("list", .arr [])]) = .arr [] ∧
    processApiResponse (.obj [("id", .str "7"), ("media", .arr [])])
      = .obj [("id", .str "7"), ("media", .arr [])] :=
  ⟨(payload_normalization (.obj []) false emptyCS).1 rfl,
   (payload_normalization .null false emptyCS).1 rfl,
   (payload_normalization (.str "string") false emptyCS).1 rfl,
   (payload_normalization (.obj [("list", .arr [])]) false emptyCS).2.2.1 rfl rfl,
   (payload_normalization (.obj [("id", .str "7"), ("media", .arr [])]) false emptyCS).2.2.2
     rfl rfl rfl⟩

/-! ## popup.js content script: DOM model -/

/-- A DOM element: tag, class list, attributes (src, poster, label, data-*,
and textContent as a pseudo-attribute), the layout position that
getBoundingClientRect reports (top, left), and children in document order. -/
inductive Elem where
  | mk (tag : String) (classes : List String) (attrs : List (String × String))
      (top left : Int) (children : List Elem)

/-- Tag name. -/
def Elem.tag : Elem → String
  | .mk t _ _ _ _ _ => t

/-- Class list. -/
def Elem.classes : Elem → List String
  | .mk _ c _ _ _ _ => c

/-- Attribute list. -/
def Elem.attrs : Elem → List (String × String)
  | .mk _ _ a _ _ _ => a

/-- Layout top. -/
def Elem.top : Elem → Int
  | .mk _ _ _ t _ _ => t

/-- Layout left. -/
def Elem.left : Elem → Int
  | .mk _ _ _ _ l _ => l

/-- Children in document order. -/
def Elem.children : Elem → List Elem
  | .mk _ _ _ _ _ cs => cs

mutual
/-- All proper descendants of an element in document (pre-)order — the search
space of querySelector / querySelectorAll, which never match the element
itself. -/
def Elem.descendants : Elem → List Elem
  | .mk _ _ _ _ _ cs => Elem.descList cs

/-- Descendants of a forest, in document order. -/
def Elem.descList : List Elem → List Elem
  | [] => []
  | e :: es => e :: (Elem.descendants e ++ Elem.descList es)
end

/-- getAttribute: null when the attribute is absent. -/
def Elem.getAttr (e : Elem) (k : String) : Option String :=
  match List.find? (fun p => p.1 == k) e.attrs with
  | some p => some p.2
  | none => none

/-- classList.contains. -/
def Elem.hasClass (e : Elem) (c : String) : Bool :=
  List.contains e.classes c

/-- The src DOM property: reflects the attribute, empty string when absent. -/
def Elem.srcProp (e : Elem) : String :=
  (e.getAttr "src").getD ""

/-- querySelectorAll with a predicate selector: all matching descendants in
document order. -/
def qsa (p : Elem → Bool) (e : Elem) : List Elem :=
  List.filter p (Elem.descendants e)

/-- querySelector: the first matching descendant. -/
def qsel (p : Elem → Bool) (e : Elem) : Option Elem :=
  List.head? (qsa p e)

/-! ## popup.js content script: the URL resolution cascade (extractVideoUrl) -/

/-- A truthy src (`if (x.src) return x.src`). -/
def srcOf? (e : Elem) : Option JSVal :=
  if e.srcProp != "" then some (.str e.srcProp) else none

/-- A truthy attribute (`const v = x.getAttribute(k); if (v) return v`). -/
def attrTruthy? (e : Elem) (k : String) : Option JSVal :=
  match e.getAttr k with
  | some s => if s != "" then some (.str s) else none
  | none => none

/-- Selector `video.vjs-tech`. -/
def isVjsTechVideo (e : Elem) : Bool := e.tag == "video" && e.hasClass "vjs-tech"

/-- Selector `source[label="original"]`. -/
def isOriginalSource (e : Elem) : Bool :=
  e.tag == "source" && e.getAttr "label" == some "original"

/-- Selector `source`. -/
def isSourceEl (e : Elem) : Bool := e.tag == "source"

/-- Selector `video`. -/
def isVideoEl (e : Elem) : Bool := e.tag == "video"

/-- Selector `[data-video], [data-src], [data-url]` (attribute presence). -/
def hasAnyDataAttr (e : Elem) : Bool :=
  (e.getAttr "data-video").isSome || (e.getAttr "data-src").isSome
    || (e.getAttr "data-url").isSome

/-- Method 1 of extractVideoUrl (src/popup.js lines 869-891): on the first
`video.vjs-tech` descendant, try the original-labeled source, then any source,
then the direct src. -/
def evuMethod1 (wrapper : Elem) : Option JSVal :=
  match qsel isVjsTechVideo wrapper with
  | none => none
  | some video =>
      (Option.bind (qsel isOriginalSource video) srcOf?)
        <|> (Option.bind (qsel isSourceEl video) srcOf?)
        <|> srcOf? video

/-- The quality map literal of Method 2 (src/popup.js lines 902-906):
full from source?.source, 240/720 from videoSources?.[...]. -/
def qualityMapAt (media : JSVal) (k : String) : JSVal :=
  if k == "full" then jsOptField (jsFieldD media "source") "source"
  else if k == "240" then jsOptField (jsFieldD media "videoSources") "240"
  else if k == "720" then jsOptField (jsFieldD media "videoSources") "720"
  else .null

/-- The quality selection of Method 2 (src/popup.js line 908):
`qualityMap[this.settings.quality] || qualityMap.full`, returned when truthy. -/
def storeQualityLookup (media : JSVal) (quality : String) : Option JSVal :=
  let v := if jsTruthy (qualityMapAt media quality) then qualityMapAt media quality
           else qualityMapAt media "full"
  if jsTruthy v then some v else none

/-- The per-media loop of Method 2 (src/popup.js lines 900-914): first video
entry whose quality selection is truthy.  Reading .type on a null entry throws
a TypeError, which extractVideoUrl does not catch — and such entries are
storable, since processMediaItem sets the store before walking the media
array. -/
def storeMediaLoop (quality : String) : List JSVal → Except Unit (Option JSVal)
  | [] => .ok none
  | m :: ms =>
      match jsField m "type" with
      | .error e => .error e
      | .ok ty =>
          if JSVal.beq ty (.str "video") then
            match storeQualityLookup m quality with
            | some v => .ok (some v)
            | none => storeMediaLoop quality ms
          else storeMediaLoop quality ms

/-- Method 2 of extractVideoUrl (src/popup.js lines 893-915): mediaStore
lookup by the post's data-id attribute, then
`const mediaList = postData.media || []` and `for (const media of mediaList)`.
A falsy media field iterates nothing; an array iterates its elements; a
string is iterable and iterates its characters, none of which has a .type, so
they are all skipped; every other truthy value is not iterable and the for-of
throws a TypeError that extractVideoUrl does not catch. -/
def evuMethod2 (post : Option Elem) (mediaStore : Store) (quality : String) :
    Except Unit (Option JSVal) :=
  match post with
  | none => .ok none
  | some p =>
      match Elem.getAttr p "data-id" with
      | none => .ok none
      | some pid =>
          if pid != "" && storeHas mediaStore (.str pid) then
            match jsField (storeGet mediaStore (.str pid)) "media" with
            | .error e => .error e
            | .ok m =>
                if jsTruthy m then
                  match m with
                  | .arr ms => storeMediaLoop quality ms
                  | .str sv => storeMediaLoop quality
                      (List.map (fun c => JSVal.str (String.mk [c])) sv.data)
                  | _ => .error ()
                else storeMediaLoop quality []
          else .ok none

/-- Method 3 of extractVideoUrl (src/popup.js lines 917-934): data-src then
data-video on the first nested video element. -/
def evuMethod3 (wrapper : Elem) : Option JSVal :=
  match qsel isVideoEl wrapper with
  | none => none
  | some v => attrTruthy? v "data-src" <|> attrTruthy? v "data-video"

/-- Method 4 of extractVideoUrl (src/popup.js lines 936-941): data-src on the
wrapper itself. -/
def evuMethod4 (wrapper : Elem) : Option JSVal := attrTruthy? wrapper "data-src"

/-- First source element with a non-empty src. -/
def firstSourceSrc : List Elem → Option JSVal
  | [] => none
  | s :: ss => srcOf? s <|> firstSourceSrc ss

/-- The per-video loop of Method 5: direct src, then source children. -/
def evuMethod5Loop : List Elem → Option JSVal
  | [] => none
  | v :: vs => (srcOf? v <|> firstSourceSrc (qsa isSourceEl v)) <|> evuMethod5Loop vs

/-- Method 5 of extractVideoUrl (src/popup.js lines 943-962): scan every
nested video for a non-empty src or a source child with one. -/
def evuMethod5 (wrapper : Elem) : Option JSVal := evuMethod5Loop (qsa isVideoEl wrapper)

/-- JS || on getAttribute results (null and the empty string are falsy). -/
def strOrAttr (a b : Option String) : Option String :=
  match a with
  | some s => if s != "" then some s else b
  | none => b

/-- The per-element loop of Method 6 (src/popup.js lines 965-972):
data-video || data-src || data-url, kept when truthy and containing http. -/
def evuMethod6Loop : List Elem → Option JSVal
  | [] => none
  | e :: es =>
      match strOrAttr (strOrAttr (e.getAttr "data-video") (e.getAttr "data-src"))
          (e.getAttr "data-url") with
      | some v => if v != "" && strIncludes v "http" then some (.str v) else evuMethod6Loop es
      | none => evuMethod6Loop es

/-- Method 6 of extractVideoUrl (src/popup.js lines 964-972). -/
def evuMethod6 (wrapper : Elem) : Option JSVal := evuMethod6Loop (qsa hasAnyDataAttr wrapper)

/-- extractVideoUrl (src/popup.js lines 865-976): six methods with
early-return short-circuiting, null when all fail; the function has no
try/catch, so a TypeError raised inside Method 2 propagates to the caller. -/
def extractVideoUrl (wrapper : Elem) (post : Option Elem) (mediaStore : Store)
    (quality : String) : Except Unit (Option JSVal) :=
  match evuMethod1 wrapper with
  | some u => .ok (some u)
  | none =>
  match evuMethod2 post mediaStore quality with
  | .error e => .error e
  | .ok (some u) => .ok (some u)
  | .ok none =>
  match evuMethod3 wrapper with
  | some u => .ok (some u)
  | none =>
  match evuMethod4 wrapper with
  | some u => .ok (some u)
  | none =>
  match evuMethod5 wrapper with
  | some u => .ok (some u)
  | none => .ok (evuMethod6 wrapper)

/-- extractVideoUrlFromElement (src/popup.js lines 1011-1037): original
source, any source, direct src, data-src, data-video — no store lookup, no
exhaustive scan. -/
def extractVideoUrlFromElement (video : Elem) : Option JSVal :=
  (Option.bind (qsel isOriginalSource video) srcOf?)
    <|> (Option.bind (qsel isSourceEl video) srcOf?)
    <|> srcOf? video
    <|> attrTruthy? video "data-src"
    <|> attrTruthy? video "data-video"

/-! ## C9: the resolution cascade order -/

/-- Modelled from the spec: the per-media selection of stage (4) of the
claimed cascade, with the preferred tier falling back to full; the spec
describes no exception behavior, so this stage is total. -/
def storeMediaLoopSpec (quality : String) : List JSVal → Option JSVal
  | [] => none
  | m :: ms =>
      if JSVal.beq (jsFieldD m "type") (.str "video") then
        match storeQualityLookup m quality with
        | some v => some v
        | none => storeMediaLoopSpec quality ms
      else storeMediaLoopSpec quality ms

/-- Modelled from the spec: stage (4) of the claimed cascade — lookup in the
Correlation Store by the container's declared post identifier, using the
preferred quality with fallback to full when the preferred tier is absent. -/
def storeLookupSpec (post : Option Elem) (mediaStore : Store) (quality : String) :
    Option JSVal :=
  match post with
  | none => none
  | some p =>
      match Elem.getAttr p "data-id" with
      | none => none
      | some pid =>
          if pid != "" && storeHas mediaStore (.str pid) then
            match jsFieldD (storeGet mediaStore (.str pid)) "media" with
            | .arr ms => storeMediaLoopSpec quality ms
            | _ => none
          else none

/-- Modelled from the spec: stage 5 of the claimed cascade — the four data
attributes, data-src, data-video, data-url, data-source, on one element. -/
def dataAttrStages (e : Elem) : Option JSVal :=
  attrTruthy? e "data-src" <|> attrTruthy? e "data-video"
    <|> attrTruthy? e "data-url" <|> attrTruthy? e "data-source"

/-- Modelled from the spec: stage 5's walk over the element and up to three
ancestor levels. -/
def dataAttrWalk : List Elem → Option JSVal
  | [] => none
  | e :: es => dataAttrStages e <|> dataAttrWalk es

/-- Modelled from the spec: the claimed resolution cascade in the claimed
order — (1) an embedded source labeled original, (2) any embedded source,
(3) the media element's direct source attribute, (4) store lookup by the
container's post identifier with fallback to full, (5) data-src, data-video,
data-url, data-source on the element or up to 3 ancestor levels,
(6) exhaustive scan of all nested media/source elements — for comparison with
the code's extractVideoUrl. -/
def resolveCascadeSpec (container : Elem) (ancestors : List Elem) (post : Option Elem)
    (mediaStore : Store) (quality : String) : Option JSVal :=
  (Option.bind (qsel isOriginalSource container) srcOf?)
    <|> (Option.bind (qsel isSourceEl container) srcOf?)
    <|> (Option.bind (qsel isVideoEl container) srcOf?)
    <|> storeLookupSpec post mediaStore quality
    <|> dataAttrWalk (container :: List.take 3 ancestors)
    <|> evuMethod5 container

/-- A container whose video URL is declared only in a data-source attribute. -/
def wrapperDS : Elem :=
  .mk "div" ["video-wrapper"] [("data-source", "https://x/only.mp4")] 0 0 []

/-- C9 counterexample: the cascade as the claim states it (data-source among
the stage-5 attributes, before the exhaustive scan) resolves this container,
but the code's extractVideoUrl returns null: extractVideoUrl never consults
data-source at all. -/
theorem resolution_cascade_counterexample :
    resolveCascadeSpec wrapperDS [] none [] "full" = some (.str "https://x/only.mp4") ∧
    extractVideoUrl wrapperDS none [] "full" = .ok none :=
  ⟨rfl, rfl⟩

/-- C9 amended: extractVideoUrl applies, with first-success short-circuiting:
(1) original source / any source / direct src within the first video.vjs-tech
element, (2) store lookup by post data-id with preferred-quality-then-full
fallback, (3) data-src then data-video on the first nested video, (4) data-src
on the container, (5) scan of all nested videos for a src or a source child,
(6) http-containing data-video/data-src/data-url on any descendant — and it
returns null exactly when every strategy fails without throwing.  When
strategy (1) fails and the store lookup hits a stored item whose media field
is a truthy non-iterable, or whose media array holds a null entry, the
resolver throws the TypeError uncaught instead of continuing the cascade —
and both such items really are storable, since processMediaItem writes the
store before walking the media array, as the two concrete recordings show.
(data-source and ancestor walks belong to other helpers, not this resolver.) -/
theorem resolution_cascade_order (w : Elem) (post : Option Elem) (st : Store) (q : String) :
    (extractVideoUrl w post st q
      = match evuMethod1 w with
        | some u => .ok (some u)
        | none =>
            match evuMethod2 post st q with
            | .error e => .error e
            | .ok v2 => .ok (v2 <|> evuMethod3 w <|> evuMethod4 w <|> evuMethod5 w
                <|> evuMethod6 w)) ∧
    (extractVideoUrl w post st q = .ok none ↔
      evuMethod1 w = none ∧ evuMethod2 post st q = .ok none ∧ evuMethod3 w = none
        ∧ evuMethod4 w = none ∧ evuMethod5 w = none ∧ evuMethod6 w = none) ∧
    (extractVideoUrl w post st q = .error () ↔
      evuMethod1 w = none ∧ evuMethod2 post st q = .error ()) ∧
    (recordResponse (.arr [.obj [("id", .str "5"), ("media", .obj [("a", .num 1)])]])
        false emptyCS).mediaStore
      = [(.str "5", .obj [("id", .str "5"), ("media", .obj [("a", .num 1)])])] ∧
    extractVideoUrl (.mk "div" [] [] 0 0 [])
      (some (.mk "div" ["b-post"] [("data-id", "5")] 0 0 []))
      [(.str "5", .obj [("id", .str "5"), ("media", .obj [("a", .num 1)])])] "full"
      = .error () ∧
    (recordResponse (.arr [.obj [("id", .str "7"), ("media", .arr [.null])]])
        false emptyCS).mediaStore
      = [(.str "7", .obj [("id", .str "7"), ("media", .arr [.null])])] ∧
    extractVideoUrl (.mk "div" [] [] 0 0 [])
      (some (.mk "div" ["b-post"] [("data-id", "7")] 0 0 []))
      [(.str "7", .obj [("id", .str "7"), ("media", .arr [.null])])] "full"
      = .error () := by
  refine ⟨?_, ?_, ?_, rfl, rfl, rfl, rfl⟩
  · unfold extractVideoUrl
    cases evuMethod1 w with
    | some u => rfl
    | none =>
        cases h2 : evuMethod2 post st q with
        | error e => rfl
        | ok v2 =>
            cases v2 with
            | some u => simp
            | none =>
                cases evuMethod3 w <;> cases evuMethod4 w <;> cases evuMethod5 w <;> simp
  · unfold extractVideoUrl
    cases evuMethod1 w with
    | some u => simp
    | none =>
        cases h2 : evuMethod2 post st q with
        | error e => simp
        | ok v2 =>
            cases v2 with
            | some u => simp
            | none =>
                cases evuMethod3 w <;> cases evuMethod4 w <;> cases evuMethod5 w <;> simp
  · unfold extractVideoUrl
    cases evuMethod1 w with
    | some u => simp
    | none =>
        cases h2 : evuMethod2 post st q with
        | error e => cases e; simp
        | ok v2 =>
            cases v2 with
            | some u => simp
            | none =>
                cases evuMethod3 w <;> cases evuMethod4 w <;> cases evuMethod5 w <;> simp

/-! ## C3: fingerprint-keyed video resolution -/

theorem splitOnChar_no_sep (sep : Char) :
    ∀ (l r : List Char), sep ∉ l →
      splitOnChar sep (l ++ sep :: r) = l :: splitOnChar sep r := by
  intro l
  induction l with
  | nil =>
    intro r _
    simp [splitOnChar]
  | cons c cs ih =>
    intro r h
    have hcne : c ≠ sep := by
      intro he
      exact h (by rw [← he]; exact List.mem_cons_self c cs)
    have hc : (c == sep) = false := beq_eq_false_iff_ne.mpr hcne
    have h2 : sep ∉ cs := fun hm => h (List.mem_cons_of_mem _ hm)
    simp [splitOnChar, hc, ih r h2]

theorem cleanUrl_strips_query (u q : String) (h : ('?' : Char) ∉ u.data) :
    cleanUrl (.str (u ++ "?" ++ q)) = .ok (.str u) := by
  have hdata : (u ++ "?" ++ q).data = u.data ++ '?' :: q.data := by
    rw [String.data_append, String.data_append]
    simp
  show Except.ok (JSVal.str ((List.map String.mk (splitOnChar '?' (u ++ "?" ++ q).data)).headD ""))
      = Except.ok (JSVal.str u)
  rw [hdata, splitOnChar_no_sep '?' u.data q.data h]
  rfl

/-- The end-to-end payload of the spec: post 42 with one video whose preview
carries a query string, a full source, and a 720 tier. -/
def c3payload : JSVal :=
  .obj [("id", .str "42"),
        ("media", .arr [
          .obj [("type", .str "video"),
                ("preview", .str "https://x/p.jpg?z=1"),
                ("source", .obj [("source", .str "https://x/full.mp4")]),
                ("videoSources", .obj [("720", .str "https://x/720.mp4")])]])]

/-- A container whose media is identified only by the preview fingerprint (the
poster), with no post id, no sources and no data attributes. -/
def fingerprintWrapper : Elem :=
  .mk "div" ["video-wrapper"] [] 0 0
    [.mk "video" [] [("poster", "https://x/p.jpg?z=1")] 0 0 []]

/-- The surrounding post of the fingerprint-only container. -/
def fingerprintPost : Elem := .mk "div" ["b-post"] [] 0 0 [fingerprintWrapper]

/-- C3 counterexample: after recording the payload, the imageStore does hold
the quality map under the stripped fingerprint with the full tier present, yet
resolving the container that carries only that fingerprint returns null, not
Q[full]: no resolution path reads the fingerprint-keyed store (the only store
lookup is by post data-id in mediaStore, and this container declares none). -/
theorem fingerprint_resolution_counterexample :
    storeGet (recordResponse c3payload false emptyCS).imageStore (.str "https://x/p.jpg")
      = .obj [("full", .str "https://x/full.mp4"), ("720", .str "https://x/720.mp4")] ∧
    jsTruthy (jsFieldD (storeGet (recordResponse c3payload false emptyCS).imageStore
        (.str "https://x/p.jpg")) "full") = true ∧
    extractVideoUrl fingerprintWrapper (some fingerprintPost)
      (recordResponse c3payload false emptyCS).mediaStore "full" = .ok none :=
  ⟨rfl, rfl, rfl⟩

/-- C3 amended: recording is fingerprint-keyed and query-string-insensitive
(the store key is the preview URL with everything from the first question mark
stripped, so previews differing only in their query string write the same
record), and the quality-selection logic of the store lookup returns Q[q] when
that tier is truthy, else Q[full] when truthy, else nothing; but resolution by
fingerprint does not exist in the code — the fingerprint-keyed imageStore is
never read, the only store consulted is mediaStore keyed by the container's
data-id, so a container known only by its preview fingerprint resolves to
null whatever has been recorded. -/
theorem fingerprint_store_amended :
    (∀ (u q1 q2 : String), ('?' : Char) ∉ u.data →
        cleanUrl (.str (u ++ "?" ++ q1)) = .ok (.str u)
          ∧ cleanUrl (.str (u ++ "?" ++ q2)) = .ok (.str u)) ∧
    (∀ (m : JSVal) (q : String),
        storeQualityLookup m q
          = if jsTruthy (qualityMapAt m q) = true then some (qualityMapAt m q)
            else if jsTruthy (qualityMapAt m "full") = true then some (qualityMapAt m "full")
            else none) ∧
    (∀ st : Store,
        extractVideoUrl fingerprintWrapper (some fingerprintPost) st "full" = .ok none) := by
  refine ⟨?_, ?_, ?_⟩
  · intro u q1 q2 h
    exact ⟨cleanUrl_strips_query u q1 h, cleanUrl_strips_query u q2 h⟩
  · intro m q
    unfold storeQualityLookup
    by_cases h1 : jsTruthy (qualityMapAt m q) = true
    · simp [h1]
    · by_cases h2 : jsTruthy (qualityMapAt m "full") = true
      · simp [h1, h2]
      · simp [h1, h2]
  · intro st
    rfl

theorem fingerprint_store_amended_witness :
    cleanUrl (.str ("https://x/p.jpg" ++ "?" ++ "z=1")) = .ok (.str "https://x/p.jpg") ∧
    cleanUrl (.str ("https://x/p.jpg" ++ "?" ++ "y=2")) = .ok (.str "https://x/p.jpg") ∧
    storeQualityLookup (.obj [("type", .str "video")]) "720" = none ∧
    extractVideoUrl fingerprintWrapper (some fingerprintPost) [] "full" = .ok none :=
  ⟨(fingerprint_store_amended.1 "https://x/p.jpg" "z=1" "y=2" (by decide)).1,
   (fingerprint_store_amended.1 "https://x/p.jpg" "z=1" "y=2" (by decide)).2,
   (fingerprint_store_amended.2.1 (.obj [("type", .str "video")]) "720").trans (by rfl),
   fingerprint_store_amended.2.2 []⟩

/-! ## popup.js content script: control injection (C8) -/

/-- Page-level context the injection code reads besides the post itself:
the document (for the DM page title) and location.pathname. -/
structure PageCtx where
  doc : Elem
  locationPath : String

/-- JS String.prototype.trim on the whitespace the embedded strings use. -/
def isJsSpace (c : Char) : Bool := c == ' ' || c == '\t' || c == '\n' || c == '\r'

/-- JS trim: strip leading and trailing whitespace. -/
def jsTrim (s : String) : String :=
  String.mk (((s.data.dropWhile isJsSpace).reverse.dropWhile isJsSpace).reverse)

/-- JS `s.replace('@', '')` with a string pattern: remove the first match. -/
def removeFirstAt : List Char → List Char
  | [] => []
  | c :: cs => if c == '@' then cs else c :: removeFirstAt cs

/-- getCreatorUsername (src/popup.js lines 1042-1058): the username element,
else the DM page title, else the second path segment, else the placeholder. -/
def getCreatorUsername (ctx : PageCtx) (element : Elem) : String :=
  match qsel (fun e => e.hasClass "g-user-username") element with
  | some u => String.mk (removeFirstAt (jsTrim ((u.getAttr "textContent").getD "")).data)
  | none =>
  match qsel (fun e => e.tag == "h1" && e.hasClass "g-page-title") ctx.doc with
  | some t => jsTrim ((t.getAttr "textContent").getD "")
  | none =>
      let seg := List.getD (jsSplit ctx.locationPath '/') 1 ""
      if seg = "" then "unknown_creator" else seg

/-- isVideoThumbnail (src/popup.js lines 839-860): within 100 layout units of
a video wrapper, or a URL containing thumb/preview/small. -/
def isVideoThumbnail (img : Elem) (wrappers : List Elem) : Bool :=
  (List.any wrappers fun w =>
    decide ((w.top - img.top).natAbs + (w.left - img.left).natAbs < 100))
  || strIncludes img.srcProp "thumb" || strIncludes img.srcProp "preview"
  || strIncludes img.srcProp "small"

/-- The wrapper forEach of extractMediaFromPost (src/popup.js lines 803-809):
the resolved video URLs in order; an exception from extractVideoUrl
propagates, the forEach having no catch. -/
def collectWrapperVideos (post : Elem) (mediaStore : Store) (quality : String) :
    List Elem → Except Unit (List JSVal)
  | [] => .ok []
  | w :: ws =>
      match extractVideoUrl w (some post) mediaStore quality with
      | .error e => .error e
      | .ok none => collectWrapperVideos post mediaStore quality ws
      | .ok (some u) =>
          match collectWrapperVideos post mediaStore quality ws with
          | .error e => .error e
          | .ok us => .ok (u :: us)

/-- extractMediaFromPost (src/popup.js lines 795-834): resolved videos first
(each wrapper through extractVideoUrl), then images — all images when no video
resolved, otherwise only images that are not video thumbnails.  A TypeError
from the resolver propagates out, this function having no try/catch. -/
def extractMediaFromPost (ctx : PageCtx) (mediaStore : Store) (quality : String)
    (post : Elem) : Except Unit (List (JSVal × String × String)) :=
  let creator := getCreatorUsername ctx post
  let wrappers := qsa (fun e => e.tag == "div" && e.hasClass "video-wrapper") post
  match collectWrapperVideos post mediaStore quality wrappers with
  | .error e => .error e
  | .ok vids =>
      let videoEntries := List.map (fun u => (u, creator, "download video")) vids
      let images := qsa (fun e => e.tag == "img" && e.hasClass "b-post__media__img") post
      let imageEntries :=
        if vids.isEmpty then
          List.map (fun i => (JSVal.str i.srcProp, creator, "download"))
            (List.filter (fun i => i.srcProp != "") images)
        else
          List.map (fun i => (JSVal.str i.srcProp, creator, "download"))
            (List.filter (fun i => i.srcProp != "" && !(isVideoThumbnail i wrappers)) images)
      .ok (videoEntries ++ imageEntries)

/-- groupMediaByType (src/popup.js lines 1082-1106): video and image groups,
merged into one mixed group when both are non-empty. -/
def groupMediaByType (media : List (JSVal × String × String)) :
    List (List (JSVal × String × String)) :=
  let vids := List.filter (fun e => strIncludes e.2.2 "video") media
  let imgs := List.filter (fun e => !(strIncludes e.2.2 "video")) media
  if !vids.isEmpty && !imgs.isEmpty then [vids ++ imgs]
  else List.filter (fun g => !g.isEmpty) [vids, imgs]

/-- createSmartDownloadButton (src/popup.js lines 1111-1189): the button with
its content-dependent label (listeners carry no DOM state). -/
def createSmartDownloadButton (group : List (JSVal × String × String)) : Elem :=
  let isVideo := List.any group fun e => strIncludes e.2.2 "video"
  let text :=
    if group.length > 1 then "📥 Download All (" ++ toString group.length ++ ")"
    else if isVideo then "🎬 Download Video"
    else "📷 Download Image"
  .mk "button" [] [("textContent", text)] 0 0 []

/-- createDownloadButtonContainer (src/popup.js lines 1063-1077): a div whose
className is the process-unique marker, holding one smart button per group. -/
def createDownloadButtonContainer (ucMarker : String)
    (media : List (JSVal × String × String)) : Elem :=
  .mk "div" [ucMarker] [] 0 0 (List.map createSmartDownloadButton (groupMediaByType media))

/-- appendChild on the element itself. -/
def Elem.appendChild (e child : Elem) : Elem :=
  match e with
  | .mk t c a tp l cs => .mk t c a tp l (cs ++ [child])

mutual
/-- Append a child to the first descendant matching the predicate, in document
order (the element querySelector would return); the Bool reports success. -/
def appendToFirst (p : Elem → Bool) (child : Elem) : Elem → Elem × Bool
  | .mk t c a tp l cs =>
      match appendToFirstList p child cs with
      | (cs2, done) => (.mk t c a tp l cs2, done)

/-- appendToFirst over a forest. -/
def appendToFirstList (p : Elem → Bool) (child : Elem) : List Elem → List Elem × Bool
  | [] => ([], false)
  | e :: es =>
      if p e then (e.appendChild child :: es, true)
      else
        match appendToFirst p child e with
        | (e2, true) => (e2 :: es, true)
        | (_, false) =>
            match appendToFirstList p child es with
            | (es2, done2) => (e :: es2, done2)
end

/-- Number of injected controls (descendants carrying the marker class). -/
def countControls (ucMarker : String) (e : Elem) : Nat :=
  List.length (List.filter (fun d => Elem.hasClass d ucMarker) (Elem.descendants e))

/-- The idempotency guard `post.querySelector('.' + this.uniqueClass)`. -/
def hasControl (ucMarker : String) (e : Elem) : Bool :=
  (qsel (fun d => d.hasClass ucMarker) e).isSome

/-- The per-post body of handleFeedPosts (src/popup.js lines 581-594): skip a
post already carrying a control, otherwise extract media and, when media was
found and a .b-post__tools container exists, append the button container to
it. -/
def handleFeedPostsPost (uc : String) (ctx : PageCtx) (mediaStore : Store)
    (quality : String) (post : Elem) : Except Unit Elem :=
  if hasControl uc post then .ok post
  else
    match extractMediaFromPost ctx mediaStore quality post with
    | .error e => .error e
    | .ok media =>
        if media.length > 0 then
          match qsel (fun e => e.hasClass "b-post__tools") post with
          | some _ =>
              .ok (appendToFirst (fun e => e.hasClass "b-post__tools")
                (createDownloadButtonContainer uc media) post).1
          | none => .ok post
        else .ok post

/-- handleNewPost (src/popup.js lines 2728-2741): extract media and, when any
was found, append the button container directly to the post — with no
marker-class guard. -/
def handleNewPost (uc : String) (ctx : PageCtx) (mediaStore : Store)
    (quality : String) (post : Elem) : Except Unit Elem :=
  match extractMediaFromPost ctx mediaStore quality post with
  | .error e => .error e
  | .ok media =>
      if media.length > 0 then
        .ok (Elem.appendChild post (createDownloadButtonContainer uc media))
      else .ok post

/-! ## C8: control-injection idempotency -/

/-- Context for the concrete C8 scenario: an empty document, a profile path. -/
def ctx0 : PageCtx := ⟨.mk "body" [] [] 0 0 [], "/bob/"⟩

/-- The process-unique marker class of this session. -/
def uc0 : String := "of-downloader-k3x9q2f"

/-- A feed post that already carries one injected control and still has a
resolvable video — the state any post is in right after a successful
injection pass.  When the SPA re-attaches such a node, the MutationObserver
reports it as an added .b-post and hands it to handleNewPost. -/
def postWithControl : Elem :=
  .mk "div" ["b-post"] [] 0 0
    [ .mk "div" ["video-wrapper"] [] 0 0
        [ .mk "video" [] [("src", "https://v.x/full.mp4")] 0 0 [] ],
      .mk "div" ["b-post__tools"] [] 0 0
        [ .mk "div" [uc0] [] 0 0 [] ] ]

/-- C8: handleNewPost lacks the marker-class guard every other injection path
has — on a post that already carries exactly one control it appends a second
one, while the guarded handleFeedPosts path correctly leaves the same post
untouched. -/
theorem control_injection_code_bug :
    countControls uc0 postWithControl = 1 ∧
    Except.map (countControls uc0) (handleNewPost uc0 ctx0 [] "full" postWithControl)
      = .ok 2 ∧
    handleFeedPostsPost uc0 ctx0 [] "full" postWithControl = .ok postWithControl :=
  ⟨rfl, rfl, rfl⟩

/-! ## C10: imageStore and videoStore are write-only -/

/-- extractVideoUrl as the class method reads the state: this.mediaStore is
the only store it consults (src/popup.js line 895). -/
def extractVideoUrlS (st : CSState) (w : Elem) (post : Option Elem) (q : String) :
    Except Unit (Option JSVal) :=
  extractVideoUrl w post st.mediaStore q

theorem videoPreviewLoop_mediaStore (v : JSVal) :
    ∀ (ps : List JSVal) (st : CSState),
      (videoPreviewLoop v ps st).1.mediaStore = st.mediaStore := by
  intro ps
  induction ps with
  | nil => intro st; rfl
  | cons p ps ih =>
    intro st
    unfold videoPreviewLoop
    cases hp : jsTruthy p with
    | false => simp only [hp, Bool.false_eq_true, if_false]; exact ih st
    | true =>
        simp only [hp, if_true]
        cases cleanUrl p with
        | error e => rfl
        | ok key => exact ih _

theorem imagePreviewLoop_mediaStore (srcv : JSVal) :
    ∀ (ps : List JSVal) (st : CSState),
      (imagePreviewLoop srcv ps st).1.mediaStore = st.mediaStore := by
  intro ps
  induction ps with
  | nil => intro st; rfl
  | cons p ps ih =>
    intro st
    unfold imagePreviewLoop
    cases hp : (jsTruthy p && jsTruthy srcv) with
    | false => simp only [hp, Bool.false_eq_true, if_false]; exact ih st
    | true =>
        simp only [hp, if_true]
        cases cleanUrl p with
        | error e => rfl
        | ok key => exact ih _

theorem processVideoMedia_mediaStore (m : JSVal) (st : CSState) :
    (processVideoMedia m st).1.mediaStore = st.mediaStore :=
  videoPreviewLoop_mediaStore _ _ _

theorem processImageMedia_mediaStore (m : JSVal) (st : CSState) :
    (processImageMedia m st).1.mediaStore = st.mediaStore :=
  imagePreviewLoop_mediaStore _ _ _

theorem mediaLoop_mediaStore :
    ∀ (ms : List JSVal) (st : CSState), (mediaLoop ms st).1.mediaStore = st.mediaStore := by
  intro ms
  induction ms with
  | nil => intro st; rfl
  | cons m ms ih =>
    intro st
    unfold mediaLoop
    cases hf : jsField m "type" with
    | error e => rfl
    | ok ty =>
        have hpr : ((if JSVal.beq ty (.str "video") then processVideoMedia m st
            else processImageMedia m st)).1.mediaStore = st.mediaStore := by
          by_cases hb : JSVal.beq ty (.str "video") = true
          · simp only [hb, if_true]; exact processVideoMedia_mediaStore m st
          · simp only [hb, if_false]; exact processImageMedia_mediaStore m st
        rcases hres : (if JSVal.beq ty (JSVal.str "video") then processVideoMedia m st
            else processImageMedia m st) with ⟨st1, threw⟩
        rw [hres] at hpr
        cases threw with
        | true => simp only [hres]; exact hpr
        | false =>
            simp only [hres]
            rw [ih st1]
            exact hpr

theorem processMediaItem_dm_mediaStore (item : JSVal) (st : CSState) :
    (processMediaItem item true st).1.mediaStore = st.mediaStore := by
  unfold processMediaItem
  cases hf : jsField item "id" with
  | error e => rfl
  | ok idv =>
      cases hid : jsTruthy idv with
      | true =>
          simp only [hid, if_true]
          cases hm : jsFieldD item "media" with
          | arr ms => exact mediaLoop_mediaStore ms _
          | null => rfl
          | bool b => rfl
          | num n => rfl
          | str v => rfl
          | obj fs => rfl
      | false =>
          simp only [hid]
          simp only [Bool.false_eq_true, if_false]
          cases hm : jsFieldD item "media" with
          | arr ms => exact mediaLoop_mediaStore ms _
          | null => rfl
          | bool b => rfl
          | num n => rfl
          | str v => rfl
          | obj fs => rfl

theorem itemsLoop_dm_mediaStore :
    ∀ (its : List JSVal) (st : CSState), (itemsLoop true its st).1.mediaStore = st.mediaStore := by
  intro its
  induction its with
  | nil => intro st; rfl
  | cons it its ih =>
    intro st
    unfold itemsLoop
    have hx := processMediaItem_dm_mediaStore it st
    rcases hres : processMediaItem it true st with ⟨st1, threw⟩
    rw [hres] at hx
    cases threw with
    | true => simp only [hres]; exact hx
    | false =>
        simp only [hres]
        rw [ih st1]
        exact hx

theorem processApiData_dm_mediaStore (data : JSVal) (st : CSState) :
    (processApiData data true st).mediaStore = st.mediaStore := by
  unfold processApiData
  cases data with
  | arr xs => exact itemsLoop_dm_mediaStore xs st
  | null => rfl
  | bool b =>
      cases hc : (jsTruthy (jsFieldD (JSVal.bool b) "id")
          && jsIsArray (jsFieldD (JSVal.bool b) "media")) <;> rfl
  | num n => rfl
  | str v => rfl
  | obj fs =>
      show ((if (jsTruthy (lookupField fs "id")
            && jsIsArray (jsFieldD (JSVal.obj fs) "media")) = true then
          processMediaItem (JSVal.obj fs) true st
        else (st, false))).1.mediaStore = st.mediaStore
      by_cases hc : (jsTruthy (lookupField fs "id")
          && jsIsArray (jsFieldD (JSVal.obj fs) "media")) = true
      · simp only [hc, if_true]
        exact processMediaItem_dm_mediaStore _ st
      · simp [hc]

/-- C10: the fingerprint-keyed imageStore and the DM videoStore are
write-only: the resolver that consults a store, extractVideoUrl, reads only
mediaStore (its result is invariant under any change to the other two stores),
and processing a DM-flagged payload (isForDm, which writes videoStore and
imageStore) never changes mediaStore — hence store-based resolution is never
reached via a preview-URL fingerprint and never succeeds through a chat/DM
payload. -/
theorem stores_write_only :
    (∀ (st : CSState) (data : JSVal),
        (processApiData data true st).mediaStore = st.mediaStore) ∧
    (∀ (ms vs1 is1 vs2 is2 : Store) (w : Elem) (post : Option Elem) (q : String),
        extractVideoUrlS ⟨ms, vs1, is1⟩ w post q = extractVideoUrlS ⟨ms, vs2, is2⟩ w post q) ∧
    (∀ (st : CSState) (data : JSVal) (w : Elem) (post : Option Elem) (q : String),
        extractVideoUrlS (processApiData data true st) w post q = extractVideoUrlS st w post q) := by
  refine ⟨fun st data => processApiData_dm_mediaStore data st,
    fun _ _ _ _ _ _ _ _ => rfl, ?_⟩
  intro st data w post q
  show extractVideoUrl w post (processApiData data true st).mediaStore q
      = extractVideoUrl w post st.mediaStore q
  rw [processApiData_dm_mediaStore data st]

end OFD
